import Mathlib

/-!
Verification of the layout and compositing geometry of the polaroid
formatter.  The definitions below are a shallow embedding of the
arithmetic in src/polaroid.py (safe-crop clamper, fail-safe crop,
cover-fit geometry, paper-scale policy) and src/logo_overlay.py
(overlay composition and placement).  Pixel coordinates and sizes are
integers; fractional configuration parameters (Python floats) are
modelled as exact rationals.  Python round, which rounds half to even,
is modelled by pyround; Python floor division by Int.fdiv.
-/

/-- Python round on a rational: round half to even (banker's rounding). -/
def pyround (q : ℚ) : ℤ :=
  if q - (⌊q⌋ : ℚ) < 1/2 then ⌊q⌋
  else if 1/2 < q - (⌊q⌋ : ℚ) then ⌊q⌋ + 1
  else if ⌊q⌋ % 2 = 0 then ⌊q⌋ else ⌊q⌋ + 1

theorem floor_le_pyround (q : ℚ) : ⌊q⌋ ≤ pyround q := by
  unfold pyround
  split_ifs <;> omega

theorem le_pyround {n : ℤ} {q : ℚ} (h : (n : ℚ) ≤ q) : n ≤ pyround q :=
  le_trans (Int.le_floor.mpr h) (floor_le_pyround q)

theorem one_le_pyround {q : ℚ} (h : 1/2 < q) : 1 ≤ pyround q := by
  rcases lt_or_le ⌊q⌋ 1 with hf | hf
  · have h0 : (0 : ℤ) ≤ ⌊q⌋ := Int.le_floor.mpr (by push_cast; linarith)
    have hf0 : ⌊q⌋ = 0 := by omega
    unfold pyround
    rw [hf0]
    push_cast
    split_ifs <;> first | omega | linarith
  · exact le_trans hf (floor_le_pyround q)

theorem fdiv_two_nonneg {d : ℤ} (h : 0 ≤ d) : 0 ≤ Int.fdiv d 2 :=
  Int.fdiv_nonneg h (by norm_num)

theorem fdiv_two_le {d : ℤ} (h : 0 ≤ d) : Int.fdiv d 2 ≤ d := by
  rw [Int.fdiv_eq_ediv _ (by norm_num)]
  omega

/-- MIN_SAFE_KEEP_RATIO from src/polaroid.py (0.60). -/
def min_safe_keep_ratio : ℚ := 3/5

/-- GOLDEN_RATIO from src/polaroid.py (1.618). -/
def golden_ratio : ℚ := 1618/1000

/-- SafeCrop dataclass from src/polaroid.py: per-edge crop fractions. -/
structure SafeCrop where
  left : ℚ
  right : ℚ
  top : ℚ
  bottom : ℚ
deriving DecidableEq

/-- Embedding of _clamp_non_symmetric_crop from src/polaroid.py. -/
def clamp_non_symmetric_crop (crop : SafeCrop) : SafeCrop :=
  let max_pair_crop : ℚ := 1 - min_safe_keep_ratio
  let lr_total := crop.left + crop.right
  let tb_total := crop.top + crop.bottom
  let lr : ℚ × ℚ :=
    if max_pair_crop < lr_total ∧ 0 < lr_total then
      (crop.left * (max_pair_crop / lr_total), crop.right * (max_pair_crop / lr_total))
    else (crop.left, crop.right)
  let tb : ℚ × ℚ :=
    if max_pair_crop < tb_total ∧ 0 < tb_total then
      (crop.top * (max_pair_crop / tb_total), crop.bottom * (max_pair_crop / tb_total))
    else (crop.top, crop.bottom)
  { left := lr.1, right := lr.2, top := tb.1, bottom := tb.2 }

/-- Geometry of apply_safe_crop from src/polaroid.py.  The function
either returns the original image unchanged (modelled as none) or
crops it to the box (left, top, right, bottom) (modelled as some). -/
def apply_safe_crop (w h : ℤ) (crop : SafeCrop) : Option (ℤ × ℤ × ℤ × ℤ) :=
  let sc := clamp_non_symmetric_crop crop
  let left := pyround ((w : ℚ) * sc.left)
  let right := w - pyround ((w : ℚ) * sc.right)
  let top := pyround ((h : ℚ) * sc.top)
  let bottom := h - pyround ((h : ℚ) * sc.bottom)
  let cropped_w := right - left
  let cropped_h := bottom - top
  let min_w := max 1 ⌊(w : ℚ) * min_safe_keep_ratio⌋
  let min_h := max 1 ⌊(h : ℚ) * min_safe_keep_ratio⌋
  if cropped_w < min_w ∨ cropped_h < min_h ∨ cropped_w < 1 ∨ cropped_h < 1 then none
  else some (left, top, right, bottom)

/-- Geometry of resize_cover from src/polaroid.py: the intermediate
scaled size and the centered crop box taken from it. -/
structure CoverFit where
  scaled_w : ℤ
  scaled_h : ℤ
  left : ℤ
  top : ℤ
  right : ℤ
  bottom : ℤ
deriving DecidableEq

/-- Embedding of resize_cover from src/polaroid.py: cover-fit a
sw x sh source into a tw x th target box. -/
def resize_cover (sw sh tw th : ℤ) : CoverFit :=
  let scale : ℚ := max ((tw : ℚ) / (sw : ℚ)) ((th : ℚ) / (sh : ℚ))
  let nw := max 1 (pyround ((sw : ℚ) * scale))
  let nh := max 1 (pyround ((sh : ℚ) * scale))
  let crop_left := Int.fdiv (nw - tw) 2
  let crop_top := Int.fdiv (nh - th) 2
  { scaled_w := nw, scaled_h := nh, left := crop_left, top := crop_top,
    right := crop_left + tw, bottom := crop_top + th }

/-- Embedding of get_paper_scale_ratio from src/polaroid.py. -/
def get_paper_scale_ratio (mode : String) (override : Option ℚ) : ℚ :=
  match override with
  | some v => v
  | none => if mode = "golden" then 1 / golden_ratio else 78/100

/-- Foreground target box computed in process_one from src/polaroid.py:
round the canvas dimensions by the paper scale ratio, at least 1px. -/
def paper_target (w h : ℤ) (ratio : ℚ) : ℤ × ℤ :=
  (max 1 (pyround ((w : ℚ) * ratio)), max 1 (pyround ((h : ℚ) * ratio)))

/-- Embedding of _resize_to_height from src/logo_overlay.py at the
size level: resize a iw x ih raster to the target height. -/
def resize_to_height (iw ih target_h : ℤ) : ℤ × ℤ :=
  let t := max 1 target_h
  (max 1 (pyround ((iw : ℚ) * ((t : ℚ) / (ih : ℚ)))), t)

/-- Overlay target height computed in apply_logo_overlay from
src/logo_overlay.py. -/
def overlay_target_h (w h : ℤ) (scale_ratio : ℚ) : ℤ :=
  max 1 (pyround (((min w h : ℤ) : ℚ) * scale_ratio))

/-- Outer margin computed in apply_logo_overlay from
src/logo_overlay.py: round the short canvas side by margin_ratio. -/
def overlay_margin (w h : ℤ) (margin_ratio : ℚ) : ℤ :=
  pyround (((min w h : ℤ) : ℚ) * margin_ratio)

/-- Embedding of compose_brand_model from src/logo_overlay.py at the
size level: none models an absent element; both absent yields the
1 x 1 transparent placeholder. -/
def compose_brand_model (brand model : Option (ℤ × ℤ)) (gap : ℤ) : ℤ × ℤ :=
  match brand, model with
  | none, none => (1, 1)
  | some b, none => b
  | none, some m => m
  | some b, some m => (b.1 + max 0 gap + m.1, max b.2 m.2)

/-- Pre-clamp placement arithmetic of apply_logo_overlay from
src/logo_overlay.py: bottom_right and bottom_center have dedicated
branches; every other placement value falls into the custom branch. -/
def place_pre_clamp (w h ow oh margin : ℤ) (placement : String) (fx fy : ℚ) : ℤ × ℤ :=
  if placement = "bottom_right" then (w - margin - ow, h - margin - oh)
  else if placement = "bottom_center" then (Int.fdiv (w - ow) 2, h - margin - oh)
  else (pyround ((w : ℚ) * fx - (ow : ℚ)), pyround ((h : ℚ) * fy - (oh : ℚ)))

/-- Final clamp of apply_logo_overlay from src/logo_overlay.py:
max(0, min(pos, max(0, dim - odim))). -/
def clamp_to_canvas (dim odim pos : ℤ) : ℤ := max 0 (min pos (max 0 (dim - odim)))

/-- Placement followed by the final clamp, as in apply_logo_overlay
from src/logo_overlay.py. -/
def overlay_paste_pos (w h ow oh margin : ℤ) (placement : String) (fx fy : ℚ) : ℤ × ℤ :=
  let p := place_pre_clamp w h ow oh margin placement fx fy
  (clamp_to_canvas w ow p.1, clamp_to_canvas h oh p.2)

/-- Result of the overlay step: either the canvas is returned with its
pixels unchanged (only converted to carry an alpha channel), or the
overlay is alpha-composited at the given position. -/
inductive OverlayResult where
  | unchanged : OverlayResult
  | pasted : ℤ → ℤ → OverlayResult
deriving DecidableEq

/-- Control flow of apply_logo_overlay from src/logo_overlay.py, over
the resolved sizes of the brand and model rasters.  The opacity step
only rescales the alpha channel and does not move any geometry. -/
def apply_logo_overlay (w h : ℤ) (margin_ratio gap_ratio : ℚ) (placement : String)
    (fx fy : ℚ) (brand model : Option (ℤ × ℤ)) : OverlayResult :=
  let margin := pyround (((min w h : ℤ) : ℚ) * margin_ratio)
  let gap := pyround (((min w h : ℤ) : ℚ) * gap_ratio)
  let ov := compose_brand_model brand model gap
  if ov.1 ≤ 1 ∧ ov.2 ≤ 1 then OverlayResult.unchanged
  else
    let p := overlay_paste_pos w h ov.1 ov.2 margin placement fx fy
    OverlayResult.pasted p.1 p.2

/-- BottomBand dataclass from src/polaroid.py. -/
structure BottomBand where
  top_ratio : ℚ
  bottom_ratio : ℚ
  y_bias : ℚ
deriving DecidableEq

/-- Modelled from the spec: top edge of the bottom band in pixels.
The band placement function apply_single_logo_bottom_center is
imported by process_one in src/polaroid.py but its definition is not
among the provided sources, so the frame_bottom_center arithmetic is
taken from the spec's own words. -/
def band_top_px (h : ℤ) (band : BottomBand) : ℤ := pyround ((h : ℚ) * band.top_ratio)

/-- Modelled from the spec: bottom edge of the bottom band in pixels. -/
def band_bottom_px (h : ℤ) (band : BottomBand) : ℤ := pyround ((h : ℚ) * band.bottom_ratio)

/-- Modelled from the spec: the biased vertical position inside the
band, band_top + round((band_height - overlay_height) * y_bias). -/
def band_y (h oh : ℤ) (band : BottomBand) : ℤ :=
  band_top_px h band
    + pyround (((band_bottom_px h band - band_top_px h band - oh : ℤ) : ℚ) * band.y_bias)

/-- Modelled from the spec: the biased position clamped to stay within
the band, between band_top and band_bottom - overlay_height. -/
def band_y_clamped (h oh : ℤ) (band : BottomBand) : ℤ :=
  max (band_top_px h band) (min (band_y h oh band) (band_bottom_px h band - oh))

/-- Modelled from the spec: the frame_bottom_center placement, missing
from the provided sources.  Horizontally centered; vertically the
band-clamped biased position, further clamped so the overlay never
violates the outer margin. -/
def frame_bottom_center_pos (w h ow oh margin : ℤ) (band : BottomBand) : ℤ × ℤ :=
  (Int.fdiv (w - ow) 2,
   max margin (min (band_y_clamped h oh band) (h - margin - oh)))

/-- Claim C4: for every SafeCrop with non-negative fractions, a pair
whose sum exceeds 1 - MIN_SAFE_KEEP_RATIO = 0.40 is scaled so that it
sums to exactly 0.40 while preserving the ratio of its two members
(stated as cross-multiplication), and a pair within the budget is
returned unchanged; the left/right and top/bottom pairs are clamped
independently by the same rule. -/
theorem safe_crop_clamp_budget (crop : SafeCrop)
    (hl : 0 ≤ crop.left) (hr : 0 ≤ crop.right)
    (ht : 0 ≤ crop.top) (hb : 0 ≤ crop.bottom) :
    ((1 - min_safe_keep_ratio < crop.left + crop.right →
        (clamp_non_symmetric_crop crop).left + (clamp_non_symmetric_crop crop).right = 2/5 ∧
        (clamp_non_symmetric_crop crop).left * crop.right
          = (clamp_non_symmetric_crop crop).right * crop.left) ∧
     (crop.left + crop.right ≤ 1 - min_safe_keep_ratio →
        (clamp_non_symmetric_crop crop).left = crop.left ∧
        (clamp_non_symmetric_crop crop).right = crop.right)) ∧
    ((1 - min_safe_keep_ratio < crop.top + crop.bottom →
        (clamp_non_symmetric_crop crop).top + (clamp_non_symmetric_crop crop).bottom = 2/5 ∧
        (clamp_non_symmetric_crop crop).top * crop.bottom
          = (clamp_non_symmetric_crop crop).bottom * crop.top) ∧
     (crop.top + crop.bottom ≤ 1 - min_safe_keep_ratio →
        (clamp_non_symmetric_crop crop).top = crop.top ∧
        (clamp_non_symmetric_crop crop).bottom = crop.bottom)) := by
  simp only [clamp_non_symmetric_crop, min_safe_keep_ratio]
  norm_num only
  split_ifs with h1 h2 h2
  all_goals refine ⟨⟨fun hgt => ?_, fun hle => ?_⟩, ⟨fun hgt2 => ?_, fun hle2 => ?_⟩⟩
  all_goals first
    | (exact ⟨rfl, rfl⟩)
    | (exact absurd hle (by push_neg; exact h1.1))
    | (exact absurd hle2 (by push_neg; exact h2.1))
    | (exact absurd (⟨hgt, by linarith⟩ : _ ∧ _) h1)
    | (exact absurd (⟨hgt2, by linarith⟩ : _ ∧ _) h2)
    | (constructor
       · have hne : crop.left + crop.right ≠ 0 := by linarith [h1.2]
         field_simp
         ring
       · ring)
    | (constructor
       · have hne : crop.top + crop.bottom ≠ 0 := by linarith [h2.2]
         field_simp
         ring
       · ring)

/-- Witness for claim C4 at the crop (0.3, 0.3, 0.1, 0.1): the
left/right pair exceeds the 0.40 budget and is scaled to sum to 0.40,
the top/bottom pair is within the budget and is unchanged. -/
theorem safe_crop_clamp_budget_instance :
    (clamp_non_symmetric_crop ⟨3/10, 3/10, 1/10, 1/10⟩).left
        + (clamp_non_symmetric_crop ⟨3/10, 3/10, 1/10, 1/10⟩).right = 2/5 ∧
    (clamp_non_symmetric_crop ⟨3/10, 3/10, 1/10, 1/10⟩).top = 1/10 ∧
    (clamp_non_symmetric_crop ⟨3/10, 3/10, 1/10, 1/10⟩).bottom = 1/10 := by
  have h := safe_crop_clamp_budget ⟨3/10, 3/10, 1/10, 1/10⟩
    (by norm_num) (by norm_num) (by norm_num) (by norm_num)
  refine ⟨(h.1.1 ?_).1, (h.2.2 ?_).1, (h.2.2 ?_).2⟩ <;>
    norm_num [min_safe_keep_ratio]

/-- Claim C5: apply_safe_crop returns the original image unchanged
(modelled as none) exactly when, after clamping and converting the
fractions to pixel offsets by rounding dimension times fraction, the
crop rectangle's width or height falls below
floor(dimension * MIN_SAFE_KEEP_RATIO) or below 1 pixel; in that case
no crop is performed and no error is raised. -/
theorem apply_safe_crop_failsafe (w h : ℤ) (crop : SafeCrop) :
    apply_safe_crop w h crop = none ↔
      ((w - pyround ((w : ℚ) * (clamp_non_symmetric_crop crop).right))
          - pyround ((w : ℚ) * (clamp_non_symmetric_crop crop).left)
            < ⌊(w : ℚ) * min_safe_keep_ratio⌋
        ∨ (h - pyround ((h : ℚ) * (clamp_non_symmetric_crop crop).bottom))
          - pyround ((h : ℚ) * (clamp_non_symmetric_crop crop).top)
            < ⌊(h : ℚ) * min_safe_keep_ratio⌋
        ∨ (w - pyround ((w : ℚ) * (clamp_non_symmetric_crop crop).right))
          - pyround ((w : ℚ) * (clamp_non_symmetric_crop crop).left) < 1
        ∨ (h - pyround ((h : ℚ) * (clamp_non_symmetric_crop crop).bottom))
          - pyround ((h : ℚ) * (clamp_non_symmetric_crop crop).top) < 1) := by
  simp only [apply_safe_crop]
  split_ifs with hc
  · simp only [lt_max_iff] at hc
    simp only [eq_self_iff_true, true_iff]
    tauto
  · constructor
    · intro hcontra
      exact absurd hcontra (by simp)
    · intro hr
      refine absurd ?_ hc
      simp only [lt_max_iff]
      tauto

/-- Claim C9: the paper scale ratio equals the override whenever one
is set, taking precedence over the mode; otherwise it is
1/GOLDEN_RATIO for mode golden and the constant 0.78 for any other
mode. -/
theorem paper_scale_ratio_policy (mode : String) (override : Option ℚ) :
    (∀ v : ℚ, override = some v → get_paper_scale_ratio mode override = v) ∧
    (override = none → mode = "golden" →
      get_paper_scale_ratio mode override = 1 / golden_ratio) ∧
    (override = none → mode ≠ "golden" →
      get_paper_scale_ratio mode override = 78/100) := by
  refine ⟨fun v hv => ?_, fun hn hm => ?_, fun hn hm => ?_⟩
  · subst hv
    rfl
  · subst hn
    subst hm
    rfl
  · subst hn
    simp [get_paper_scale_ratio, hm]

/-- Witness for claim C9: an override of 1/2 wins over mode golden,
mode golden without override gives 1/GOLDEN_RATIO, and mode fit
without override gives 0.78. -/
theorem paper_scale_ratio_policy_instance :
    get_paper_scale_ratio "golden" (some (1/2)) = 1/2 ∧
    get_paper_scale_ratio "golden" none = 1 / golden_ratio ∧
    get_paper_scale_ratio "fit" none = 78/100 :=
  ⟨(paper_scale_ratio_policy "golden" (some (1/2))).1 (1/2) rfl,
   (paper_scale_ratio_policy "golden" none).2.1 rfl rfl,
   (paper_scale_ratio_policy "fit" none).2.2 rfl (by decide)⟩

/-- Claim C6: for a source with both dimensions at least 1 and a
positive target box, resize_cover scales by max(tw/sw, th/sh) to a
rounded size of at least 1px per dimension that covers the target box
in both dimensions, then crops a floor-biased centered rectangle whose
size is exactly the target box and which lies inside the scaled
image. -/
theorem resize_cover_exact (sw sh tw th : ℤ)
    (hsw : 1 ≤ sw) (hsh : 1 ≤ sh) (htw : 1 ≤ tw) (hth : 1 ≤ th) :
    tw ≤ (resize_cover sw sh tw th).scaled_w ∧
    th ≤ (resize_cover sw sh tw th).scaled_h ∧
    1 ≤ (resize_cover sw sh tw th).scaled_w ∧
    1 ≤ (resize_cover sw sh tw th).scaled_h ∧
    0 ≤ (resize_cover sw sh tw th).left ∧
    (resize_cover sw sh tw th).right ≤ (resize_cover sw sh tw th).scaled_w ∧
    0 ≤ (resize_cover sw sh tw th).top ∧
    (resize_cover sw sh tw th).bottom ≤ (resize_cover sw sh tw th).scaled_h ∧
    (resize_cover sw sh tw th).right - (resize_cover sw sh tw th).left = tw ∧
    (resize_cover sw sh tw th).bottom - (resize_cover sw sh tw th).top = th ∧
    (resize_cover sw sh tw th).left
      = Int.fdiv ((resize_cover sw sh tw th).scaled_w - tw) 2 ∧
    (resize_cover sw sh tw th).top
      = Int.fdiv ((resize_cover sw sh tw th).scaled_h - th) 2 := by
  have hsw0 : (0 : ℚ) < (sw : ℚ) := by exact_mod_cast lt_of_lt_of_le zero_lt_one hsw
  have hsh0 : (0 : ℚ) < (sh : ℚ) := by exact_mod_cast lt_of_lt_of_le zero_lt_one hsh
  have hwq : (tw : ℚ) ≤ (sw : ℚ) * max ((tw : ℚ) / (sw : ℚ)) ((th : ℚ) / (sh : ℚ)) := by
    calc (tw : ℚ) = (sw : ℚ) * ((tw : ℚ) / (sw : ℚ)) := by field_simp
      _ ≤ (sw : ℚ) * max ((tw : ℚ) / (sw : ℚ)) ((th : ℚ) / (sh : ℚ)) :=
          mul_le_mul_of_nonneg_left (le_max_left _ _) (le_of_lt hsw0)
  have hhq : (th : ℚ) ≤ (sh : ℚ) * max ((tw : ℚ) / (sw : ℚ)) ((th : ℚ) / (sh : ℚ)) := by
    calc (th : ℚ) = (sh : ℚ) * ((th : ℚ) / (sh : ℚ)) := by field_simp
      _ ≤ (sh : ℚ) * max ((tw : ℚ) / (sw : ℚ)) ((th : ℚ) / (sh : ℚ)) :=
          mul_le_mul_of_nonneg_left (le_max_right _ _) (le_of_lt hsh0)
  have e1 : (resize_cover sw sh tw th).scaled_w
      = max 1 (pyround ((sw : ℚ) * max ((tw : ℚ) / (sw : ℚ)) ((th : ℚ) / (sh : ℚ)))) := rfl
  have e2 : (resize_cover sw sh tw th).scaled_h
      = max 1 (pyround ((sh : ℚ) * max ((tw : ℚ) / (sw : ℚ)) ((th : ℚ) / (sh : ℚ)))) := rfl
  have e3 : (resize_cover sw sh tw th).left
      = Int.fdiv ((resize_cover sw sh tw th).scaled_w - tw) 2 := rfl
  have e4 : (resize_cover sw sh tw th).top
      = Int.fdiv ((resize_cover sw sh tw th).scaled_h - th) 2 := rfl
  have e5 : (resize_cover sw sh tw th).right = (resize_cover sw sh tw th).left + tw := rfl
  have e6 : (resize_cover sw sh tw th).bottom = (resize_cover sw sh tw th).top + th := rfl
  have hw : tw ≤ (resize_cover sw sh tw th).scaled_w := by
    rw [e1]
    exact le_trans (le_pyround hwq) (le_max_right _ _)
  have hh2 : th ≤ (resize_cover sw sh tw th).scaled_h := by
    rw [e2]
    exact le_trans (le_pyround hhq) (le_max_right _ _)
  have hwd : 0 ≤ (resize_cover sw sh tw th).scaled_w - tw := by omega
  have hhd : 0 ≤ (resize_cover sw sh tw th).scaled_h - th := by omega
  refine ⟨hw, hh2, by omega, by omega, ?_, ?_, ?_, ?_, by omega, by omega, e3, e4⟩
  · rw [e3]
    exact fdiv_two_nonneg hwd
  · rw [e5, e3]
    have := fdiv_two_le hwd
    omega
  · rw [e4]
    exact fdiv_two_nonneg hhd
  · rw [e6, e4]
    have := fdiv_two_le hhd
    omega

/-- Witness for claim C6 at a 640 x 480 source and a 300 x 300 target
box: the scaled size is 400 x 300, it covers the box, and the centered
crop is exactly 300 x 300 starting at offset (50, 0). -/
theorem resize_cover_exact_instance :
    resize_cover 640 480 300 300
      = { scaled_w := 400, scaled_h := 300, left := 50, top := 0,
          right := 350, bottom := 300 } ∧
    300 ≤ (resize_cover 640 480 300 300).scaled_w ∧
    300 ≤ (resize_cover 640 480 300 300).scaled_h := by
  have h := resize_cover_exact 640 480 300 300
    (by norm_num) (by norm_num) (by norm_num) (by norm_num)
  refine ⟨?_, h.1, h.2.1⟩
  norm_num [resize_cover, pyround]
  decide

/-- Claim C7: with paper scale mode golden and no override, the
foreground target box is the canvas dimensions divided by the golden
ratio constant 1.618 and rounded, each dimension at least 1px. -/
theorem golden_paper_target (w h : ℤ) (hw : 1 ≤ w) (hh : 1 ≤ h) :
    paper_target w h (get_paper_scale_ratio "golden" none)
      = (pyround ((w : ℚ) / golden_ratio), pyround ((h : ℚ) / golden_ratio)) ∧
    1 ≤ pyround ((w : ℚ) / golden_ratio) ∧ 1 ≤ pyround ((h : ℚ) / golden_ratio) := by
  have hG : (0 : ℚ) < golden_ratio := by norm_num [golden_ratio]
  have key : ∀ d : ℤ, 1 ≤ d → 1 ≤ pyround ((d : ℚ) / golden_ratio) := by
    intro d hd
    apply one_le_pyround
    have hd1 : (1 : ℚ) ≤ (d : ℚ) := by exact_mod_cast hd
    have hdd : (1 : ℚ) / golden_ratio ≤ (d : ℚ) / golden_ratio :=
      (div_le_div_iff_of_pos_right hG).mpr hd1
    have hhalf : (1 : ℚ) / 2 < 1 / golden_ratio := by norm_num [golden_ratio]
    linarith
  have hm : ∀ d : ℤ, (d : ℚ) * (1 / golden_ratio) = (d : ℚ) / golden_ratio :=
    fun d => mul_one_div _ _
  refine ⟨?_, key w hw, key h hh⟩
  show (max 1 (pyround ((w : ℚ) * get_paper_scale_ratio "golden" none)),
        max 1 (pyround ((h : ℚ) * get_paper_scale_ratio "golden" none)))
      = (pyround ((w : ℚ) / golden_ratio), pyround ((h : ℚ) / golden_ratio))
  have hr : get_paper_scale_ratio "golden" none = 1 / golden_ratio := rfl
  rw [hr, hm w, hm h, max_eq_right (key w hw), max_eq_right (key h hh)]

/-- Witness for claim C7: on a 2000 x 3000 canvas the golden target
box is 1236 x 1854. -/
theorem golden_paper_target_instance :
    paper_target 2000 3000 (get_paper_scale_ratio "golden" none) = (1236, 1854) := by
  have h := golden_paper_target 2000 3000 (by norm_num) (by norm_num)
  rw [h.1]
  norm_num [pyround, golden_ratio]

theorem clamp_to_canvas_spec (dim odim pos : ℤ) :
    0 ≤ clamp_to_canvas dim odim pos ∧
    clamp_to_canvas dim odim pos ≤ max 0 (dim - odim) ∧
    (dim < odim → clamp_to_canvas dim odim pos = 0) := by
  unfold clamp_to_canvas
  omega

/-- Claim C3: for every placement mode, margin and overlay size, the
final pasted position is clamped into [0, max(0, canvas - overlay)]
componentwise; an overlay wider or taller than the canvas lands at
x = 0 or y = 0 respectively, and coordinates are never negative. -/
theorem overlay_final_clamp (w h ow oh margin : ℤ) (placement : String) (fx fy : ℚ) :
    0 ≤ (overlay_paste_pos w h ow oh margin placement fx fy).1 ∧
    (overlay_paste_pos w h ow oh margin placement fx fy).1 ≤ max 0 (w - ow) ∧
    0 ≤ (overlay_paste_pos w h ow oh margin placement fx fy).2 ∧
    (overlay_paste_pos w h ow oh margin placement fx fy).2 ≤ max 0 (h - oh) ∧
    (w < ow → (overlay_paste_pos w h ow oh margin placement fx fy).1 = 0) ∧
    (h < oh → (overlay_paste_pos w h ow oh margin placement fx fy).2 = 0) := by
  have e1 : (overlay_paste_pos w h ow oh margin placement fx fy).1
      = clamp_to_canvas w ow (place_pre_clamp w h ow oh margin placement fx fy).1 := rfl
  have e2 : (overlay_paste_pos w h ow oh margin placement fx fy).2
      = clamp_to_canvas h oh (place_pre_clamp w h ow oh margin placement fx fy).2 := rfl
  rw [e1, e2]
  obtain ⟨a1, a2, a3⟩ :=
    clamp_to_canvas_spec w ow (place_pre_clamp w h ow oh margin placement fx fy).1
  obtain ⟨b1, b2, b3⟩ :=
    clamp_to_canvas_spec h oh (place_pre_clamp w h ow oh margin placement fx fy).2
  exact ⟨a1, a2, b1, b2, a3, b3⟩

/-- Witness for claim C3 at a 100 x 90 canvas with a 1200 x 30 overlay
placed bottom_right: the overlay is wider than the canvas, so the
clamped x is 0 and both coordinates stay inside the canvas. -/
theorem overlay_final_clamp_instance :
    0 ≤ (overlay_paste_pos 100 90 1200 30 5 "bottom_right" 0 0).1 ∧
    (overlay_paste_pos 100 90 1200 30 5 "bottom_right" 0 0).1 ≤ max 0 (100 - 1200) ∧
    0 ≤ (overlay_paste_pos 100 90 1200 30 5 "bottom_right" 0 0).2 ∧
    (overlay_paste_pos 100 90 1200 30 5 "bottom_right" 0 0).2 ≤ max 0 (90 - 30) ∧
    ((100 : ℤ) < 1200 → (overlay_paste_pos 100 90 1200 30 5 "bottom_right" 0 0).1 = 0) ∧
    ((90 : ℤ) < 30 → (overlay_paste_pos 100 90 1200 30 5 "bottom_right" 0 0).2 = 0) :=
  overlay_final_clamp 100 90 1200 30 5 "bottom_right" 0 0

/-- Claim C2 counterexample: the placement value frame_bottom_center
is not among the recognized branches of apply_logo_overlay, and the
fallback position is not the bottom_right formula
(w - margin - overlay_w, h - margin - overlay_h): with canvas
1000 x 1000, overlay 100 x 50, margin 20 and custom ratios
(0.90, 0.93), the fallback gives (800, 880), not (880, 930). -/
theorem fallback_not_bottom_right :
    place_pre_clamp 1000 1000 100 50 20 "frame_bottom_center" (9/10) (93/100)
      ≠ (1000 - 20 - 100, 1000 - 20 - 50) := by
  simp only [place_pre_clamp,
    if_neg (by decide : ¬("frame_bottom_center" = "bottom_right")),
    if_neg (by decide : ¬("frame_bottom_center" = "bottom_center"))]
  norm_num [Prod.ext_iff, pyround]

/-- Claim C2 as amended: for placement mode bottom_right the pre-clamp
position is (w - margin - overlay_w, h - margin - overlay_h) with
margin = round(min(w, h) * margin_ratio), while every placement value
other than bottom_right and bottom_center (that is, custom as well as
any unrecognized mode) falls back to the custom-position formula
(round(w * fx - overlay_w), round(h * fy - overlay_h)). -/
theorem bottom_right_and_fallback_pos (w h ow oh : ℤ) (margin_ratio fx fy : ℚ)
    (placement : String)
    (hbr : placement ≠ "bottom_right") (hbc : placement ≠ "bottom_center") :
    place_pre_clamp w h ow oh (overlay_margin w h margin_ratio) "bottom_right" fx fy
      = (w - overlay_margin w h margin_ratio - ow,
         h - overlay_margin w h margin_ratio - oh) ∧
    place_pre_clamp w h ow oh (overlay_margin w h margin_ratio) placement fx fy
      = (pyround ((w : ℚ) * fx - (ow : ℚ)), pyround ((h : ℚ) * fy - (oh : ℚ))) := by
  constructor
  · rfl
  · simp only [place_pre_clamp, if_neg hbr, if_neg hbc]

/-- Witness for claim C2 as amended, with canvas 1000 x 1000, overlay
100 x 50, margin_ratio 0.02 (margin 20) and custom ratios
(0.90, 0.93): bottom_right yields (880, 930) while the unrecognized
mode frame_bottom_center falls back to the custom formula and yields
(800, 880). -/
theorem bottom_right_and_fallback_pos_instance :
    place_pre_clamp 1000 1000 100 50 (overlay_margin 1000 1000 (1/50))
        "bottom_right" (9/10) (93/100) = (880, 930) ∧
    place_pre_clamp 1000 1000 100 50 (overlay_margin 1000 1000 (1/50))
        "frame_bottom_center" (9/10) (93/100) = (800, 880) := by
  have h := bottom_right_and_fallback_pos 1000 1000 100 50 (1/50) (9/10) (93/100)
    "frame_bottom_center" (by decide) (by decide)
  constructor
  · rw [h.1]
    norm_num [overlay_margin, pyround]
  · rw [h.2]
    norm_num [pyround]

/-- Claim C8: when both the brand and the model item resolve to
absent, the overlay step returns the canvas with its pixels unchanged,
only ensuring an alpha channel is present: the logo pipeline is a
no-op. -/
theorem no_logo_is_noop (w h : ℤ) (margin_ratio gap_ratio fx fy : ℚ)
    (placement : String) :
    apply_logo_overlay w h margin_ratio gap_ratio placement fx fy none none
      = OverlayResult.unchanged := rfl

/-- Claim C10: whenever the merged overlay's width and height are both
at most 1 pixel, the overlay step skips placement and returns the
canvas unchanged. -/
theorem tiny_overlay_skipped (w h : ℤ) (margin_ratio gap_ratio fx fy : ℚ)
    (placement : String) (brand model : Option (ℤ × ℤ))
    (h1 : (compose_brand_model brand model
            (pyround (((min w h : ℤ) : ℚ) * gap_ratio))).1 ≤ 1)
    (h2 : (compose_brand_model brand model
            (pyround (((min w h : ℤ) : ℚ) * gap_ratio))).2 ≤ 1) :
    apply_logo_overlay w h margin_ratio gap_ratio placement fx fy brand model
      = OverlayResult.unchanged := by
  simp only [apply_logo_overlay]
  rw [if_pos ⟨h1, h2⟩]

/-- Witness for claim C10: a successfully resolved brand logo whose
source raster is 1 x 1 and whose resolved overlay raster is still
1 x 1 (target height 1, as produced by scale_ratio 0 on a 1000 x 1000
canvas) is silently dropped: the overlay step returns the canvas
unchanged. -/
theorem tiny_overlay_skipped_instance :
    apply_logo_overlay 1000 1000 (7/200) 0 "bottom_right" (9/10) (93/100)
        (some (resize_to_height 1 1 (overlay_target_h 1000 1000 0))) none
      = OverlayResult.unchanged := by
  apply tiny_overlay_skipped
  · norm_num [compose_brand_model, resize_to_height, overlay_target_h, pyround]
  · norm_num [compose_brand_model, resize_to_height, overlay_target_h, pyround]

/-- Claim C1: in the frame_bottom_center placement the overlay is
horizontally centered and its vertical position is
band_top + round((band_height - overlay_h) * y_bias) clamped into
[band_top, band_bottom - overlay_h], where band_top and band_bottom
are the rounded band edges; the hypotheses state that the spec's
further outer-margin clamp does not move the result. -/
theorem frame_bottom_center_band (w h ow oh margin : ℤ) (band : BottomBand)
    (h1 : margin ≤ band_y_clamped h oh band)
    (h2 : band_y_clamped h oh band ≤ h - margin - oh) :
    frame_bottom_center_pos w h ow oh margin band
      = (Int.fdiv (w - ow) 2,
         max (band_top_px h band)
           (min (band_top_px h band
                   + pyround (((band_bottom_px h band - band_top_px h band - oh : ℤ) : ℚ)
                       * band.y_bias))
                (band_bottom_px h band - oh))) := by
  unfold frame_bottom_center_pos
  rw [min_eq_left h2, max_eq_right h1]
  rfl

/-- Witness for claim C1 with top_ratio 0.78, bottom_ratio 0.98,
y_bias 0.72 on a 1000 x 1500 canvas and a 200 x 50 overlay with
margin 30: band_top is 1170, band_bottom is 1470, and the overlay's y
is 1170 + round(250 * 0.72) = 1350, unchanged by the clamps. -/
theorem frame_bottom_center_band_instance :
    frame_bottom_center_pos 1000 1500 200 50 30 ⟨39/50, 49/50, 18/25⟩ = (400, 1350) ∧
    band_top_px 1500 ⟨39/50, 49/50, 18/25⟩ = 1170 ∧
    band_bottom_px 1500 ⟨39/50, 49/50, 18/25⟩ = 1470 := by
  have hval : band_y_clamped 1500 50 ⟨39/50, 49/50, 18/25⟩ = 1350 := by
    norm_num [band_y_clamped, band_y, band_top_px, band_bottom_px, pyround]
  have h := frame_bottom_center_band 1000 1500 200 50 30 ⟨39/50, 49/50, 18/25⟩
    (by rw [hval]; norm_num) (by rw [hval]; norm_num)
  refine ⟨?_, ?_, ?_⟩
  · rw [h]
    rw [Prod.ext_iff]
    constructor
    · decide
    · norm_num [band_top_px, band_bottom_px, pyround]
  · norm_num [band_top_px, pyround]
  · norm_num [band_bottom_px, pyround]
